import Mathlib

/-!
Verification of `bq34z100-g1-flash/main.py`, a firmware flasher for the
TI bq34z100-g1 fuel gauge.

The module is embedded shallowly: every bus transaction the script would
issue is recorded as an `Event`; Python runtime failures (TypeError on an
arity mismatch, NameError on an undefined name, IndexError on a too-short
list) are modelled with `PyError`; `sys.exit` terminations and uncaught
exceptions are distinguished in `FlashOutcome`.  Machine integers are plain
`Nat` (the script only manipulates small non-negative constants); `/` on
integers is Python-2 floor division, modelled by `Nat` division.  Wall-clock
delays (`wait(0.2)`, `wait(0.5)`) are recorded as `delayMs` events carrying
the duration in milliseconds.
-/

namespace BQ34Z100Flash

/-- `FUEL_GAUGE_ADDRESS = 0x55` (main.py line 22): the normal i2c address. -/
def FUEL_GAUGE_ADDRESS : Nat := 0x55

/-- `ROM_ADDRESS = 0x0B` (main.py line 25): the i2c address in ROM mode. -/
def ROM_ADDRESS : Nat := 0x0B

/-- Python runtime errors that the script can raise. -/
inductive PyError where
  /-- calling a function with the wrong number of positional arguments -/
  | typeError
  /-- referencing a name that is not defined in the module -/
  | nameError
  /-- indexing a list past its length -/
  | indexError
deriving DecidableEq

/-- One observable interaction of the script with the outside world. -/
inductive Event where
  /-- `bus.write_i2c_block_data(device, register, values)` -/
  | blockWrite (device register : Nat) (values : List Nat)
  /-- `bus.write_byte_data(device, register, value)` -/
  | byteWrite (device register value : Nat)
  /-- `time.sleep(ms / 1000)` -/
  | delayMs (ms : Nat)
deriving DecidableEq

/-- `swapbytes` (lines 166-181): `bytes_in[0], bytes_in[1] = bytes_in[1], bytes_in[0]`
swaps the first two elements in place and returns the (mutated) list.  A list
with fewer than two elements raises IndexError at the subscript.  The returned
list is the caller-visible post-state of the argument. -/
def swapbytes (bytes_in : List Nat) : Except PyError (List Nat) :=
  match bytes_in with
  | a :: b :: rest => Except.ok (b :: a :: rest)
  | _ => Except.error PyError.indexError

/-- `write_block_data` (lines 194-206):
`bus.write_i2c_block_data(device, register, swapbytes(values))`.
Returns the transmitted event together with the caller-visible post-state of
`values` (swapbytes mutates the caller's list in place and returns the same
object, so the transmitted list and the post-state list coincide). -/
def write_block_data (register : Nat) (values : List Nat) (device : Nat) :
    Except PyError (Event × List Nat) :=
  match swapbytes values with
  | Except.error e => Except.error e
  | Except.ok swapped => Except.ok (Event.blockWrite device register swapped, swapped)

/-- Body of `write_byte_data` (lines 208-219):
`bus.write_byte_data(device, register, value)`.  The first parameter is the bus
handle (modelled as a `Nat` id, unused by the transmitted bytes). -/
def write_byte_data (_bus register value device : Nat) : Event :=
  Event.byteWrite device register value

/-- A Python positional call to `write_byte_data`.  The def has exactly four
parameters `(bus, register, value, device)`; a call supplying any other number
of positional arguments raises TypeError before the body runs. -/
def callWriteByteData (args : List Nat) : Except PyError Event :=
  match args with
  | [bus, register, value, device] => Except.ok (write_byte_data bus register value device)
  | _ => Except.error PyError.typeError

/-- `put_device_into_rom_mode` (lines 135-164), as the trace it issues.
`output_values = [0xff, 0xff]` is passed (and mutated) twice; after each call
the post-state list replaces the caller's variable.  `wait(0.2)` is recorded as
`delayMs 200`. On an error the prefix of events issued so far is kept. -/
def put_device_into_rom_mode : List Event × Except PyError Unit :=
  let output_values := [0xFF, 0xFF]
  let control_reg := 0x00
  match write_block_data control_reg output_values FUEL_GAUGE_ADDRESS with
  | Except.error e => ([], Except.error e)
  | Except.ok (e1, output_values) =>
    match write_block_data control_reg output_values FUEL_GAUGE_ADDRESS with
    | Except.error e => ([e1], Except.error e)
    | Except.ok (e2, _) =>
      let w1 := Event.delayMs 200
      let output_values_2 := [0x0F, 0x00]
      match write_block_data control_reg output_values_2 FUEL_GAUGE_ADDRESS with
      | Except.error e => ([e1, e2, w1], Except.error e)
      | Except.ok (e3, _) => ([e1, e2, w1, e3, Event.delayMs 200], Except.ok ())

/-- Line 103: `checksum = (0x0C + 0x83 + 0xDE) % 0x010000`. -/
def massEraseChecksum : Nat := (0x0C + 0x83 + 0xDE) % 0x010000

/-- Line 106: the value expression `checksum % 0x0100` supplied for register 0x64. -/
def massEraseLowByte : Nat := massEraseChecksum % 0x0100

/-- Line 107: the value expression `checksum / 0x0100` supplied for register 0x65
(Python-2 `/` on ints is floor division; under Python 3 the same expression is
the float 1.42578125, likewise different from 0). -/
def massEraseHighByte : Nat := massEraseChecksum / 0x0100

/-- Modelled from the spec (section 4.2 Checksum Accumulator, whose `add`
operation has no standalone counterpart in the source beyond the inline
expression on line 103): `add(byte)` keeps the running sum mod 0x10000. -/
def checksumAdd (sum byte : Nat) : Nat := (sum + byte) % 0x10000

/-- Modelled from the spec (section 4.2): feeding a byte list into the
accumulator in order. -/
def checksumFeed (sum : Nat) (bytes : List Nat) : Nat :=
  List.foldl checksumAdd sum bytes

/-- The five positional-argument lists of the `write_byte_data` calls made by
`mass_erase_data_flash` (lines 96, 99, 100, 106, 107), in program order.  Each
call in the source omits the `bus` argument, so each list has three elements. -/
def massEraseCallArgs : List (List Nat) :=
  [ [0x00, 0x0C, ROM_ADDRESS],
    [0x04, 0x83, ROM_ADDRESS],
    [0x05, 0xDE, ROM_ADDRESS],
    [0x64, massEraseLowByte, ROM_ADDRESS],
    [0x65, massEraseHighByte, ROM_ADDRESS] ]

/-- The three positional-argument lists of the `write_byte_data` calls made by
`execute_gas_gauge_program` (lines 36, 39, 40); the `bus` argument is omitted
in each. -/
def gasGaugeCallArgs : List (List Nat) :=
  [ [0x00, 0x0F, ROM_ADDRESS],
    [0x64, 0x0F, ROM_ADDRESS],
    [0x65, 0x00, ROM_ADDRESS] ]

/-- Runs a sequence of `write_byte_data` calls, keeping the events issued
before the first raising call (an error propagates as in Python, aborting the
rest of the statement list). -/
def runByteCalls (argLists : List (List Nat)) : List Event × Except PyError Unit :=
  match argLists with
  | [] => ([], Except.ok ())
  | args :: rest =>
    match callWriteByteData args with
    | Except.error e => ([], Except.error e)
    | Except.ok ev =>
      match runByteCalls rest with
      | (tr, res) => (ev :: tr, res)

/-- `mass_erase_data_flash` (lines 82-112): the five `write_byte_data` calls of
`massEraseCallArgs` in order (the checksum of line 103 is computed between the
third and fourth call and does not depend on any call result), then
`wait(0.5)`, then `return checksum`. -/
def mass_erase_data_flash : List Event × Except PyError Nat :=
  match runByteCalls massEraseCallArgs with
  | (tr, Except.error e) => (tr, Except.error e)
  | (tr, Except.ok _) => (tr ++ [Event.delayMs 500], Except.ok massEraseChecksum)

/-- `execute_gas_gauge_program` (lines 27-40): three `write_byte_data` calls. -/
def execute_gas_gauge_program : List Event × Except PyError Unit :=
  runByteCalls gasGaugeCallArgs

/-- `get_image` (lines 77-80): the body is `pass`, so the function returns
Python `None` (modelled as `none`). It is never called. -/
def get_image (_path_to_image : String) : Option Unit := none

/-- `write_image` (lines 221-233): the body's only statement is
`image_data = get_image_data(path_to_image)`, and the name `get_image_data` is
not defined anywhere in the module (only `get_image` exists), so the call
raises NameError before issuing any bus transaction. -/
def write_image (_path_to_image : String) (_checksum : Nat) :
    List Event × Except PyError Unit :=
  ([], Except.error PyError.nameError)

/-- Characters of `os.path.basename`: everything after the last `/`. -/
def basenameChars (p : List Char) : List Char :=
  (List.takeWhile (fun c => c != '/') p.reverse).reverse

/-- The extension component of `os.path.splitext(p)`: the suffix from the last
dot of the basename, unless every basename character before that dot is itself
a dot (leading dots do not start an extension), in which case it is empty. -/
def splitextExt (p : String) : String :=
  let b := basenameChars p.data
  let afterRev := List.takeWhile (fun c => c != '.') b.reverse
  if afterRev.length = b.length then ""
  else if (b.take (b.length - afterRev.length - 1)).all (fun c => c == '.') then ""
  else String.mk ('.' :: afterRev.reverse)

/-- The input file as the script can observe it: its path, whether
`os.path.isfile` holds, and its text content.  The content field exists so that
content-(in)dependence of the control flow can be stated; the script never
reads it (`write_image` raises before any read). -/
structure ImageFile where
  path : String
  isfile : Bool
  content : String

/-- `is_valid_image_file` (lines 114-133): the path must be a regular file and
`os.path.splitext` must yield the extension `.srec`; the content is not
examined. -/
def is_valid_image_file (file_in : ImageFile) : Bool :=
  if ¬ file_in.isfile then false
  else if ¬ (splitextExt file_in.path = ".srec") then false
  else true

/-- How a run of the script ends. -/
inductive FlashOutcome where
  /-- `main` printed "not a valid image file" and called `sys.exit()` -/
  | exitedInvalidFile
  /-- `flash_image` caught IOError from `smbus.SMBus(port)` and called `sys.exit()` -/
  | exitedTransportOpen
  /-- an uncaught Python exception aborted the run -/
  | raised (e : PyError)
  /-- the script ran to completion -/
  | completed
deriving DecidableEq

/-- `flash_image` (lines 42-75).  `busOpens` models whether `smbus.SMBus(port)`
succeeds; on IOError the script prints and exits with no bus transaction.
Otherwise the phases run in order, each uncaught error aborting the run while
keeping the events already issued. -/
def flash_image (busOpens : Bool) (image_in : String) : List Event × FlashOutcome :=
  if busOpens then
    match put_device_into_rom_mode with
    | (romTr, Except.error e) => (romTr, FlashOutcome.raised e)
    | (romTr, Except.ok _) =>
      match mass_erase_data_flash with
      | (eraseTr, Except.error e) => (romTr ++ eraseTr, FlashOutcome.raised e)
      | (eraseTr, Except.ok checksum) =>
        match write_image image_in checksum with
        | (writeTr, Except.error e) => (romTr ++ eraseTr ++ writeTr, FlashOutcome.raised e)
        | (writeTr, Except.ok _) =>
          match execute_gas_gauge_program with
          | (execTr, Except.error e) =>
            (romTr ++ eraseTr ++ writeTr ++ execTr, FlashOutcome.raised e)
          | (execTr, Except.ok _) =>
            (romTr ++ eraseTr ++ writeTr ++ execTr, FlashOutcome.completed)
  else ([], FlashOutcome.exitedTransportOpen)

/-- `main` (lines 235-262), after argument parsing: validate the file with
`is_valid_image_file`, then either run `flash_image` or print and `sys.exit()`
without touching the bus. -/
def main_flow (busOpens : Bool) (image_file : ImageFile) : List Event × FlashOutcome :=
  if is_valid_image_file image_file then flash_image busOpens image_file.path
  else ([], FlashOutcome.exitedInvalidFile)

/-- C1 counterexample: the accumulator started from zero and fed
`[0x0C, 0x83, 0xDE]` yields `0x016D`, and it is false that the low byte is
`0x91` with high byte `0x00` (they are `0x6D` and `0x01`). -/
theorem c1_seed_checksum_not_0x91_0x00 :
    checksumFeed 0 [0x0C, 0x83, 0xDE] = massEraseChecksum ∧
    massEraseChecksum = 0x016D ∧
    ¬ (massEraseLowByte = 0x91 ∧ massEraseHighByte = 0x00) := by
  refine ⟨by decide, by decide, by decide⟩

/-- C1 (amended): the checksum accumulator started from zero and fed the three
erase-phase seed bytes `0x0C`, `0x83`, `0xDE` yields `0x016D`, whose low byte
(`mod 0x100`) is `0x6D` and whose high byte (`div 0x100`) is `0x01`; these two
bytes are the values `mass_erase_data_flash` supplies for the verification
registers `0x64` and `0x65` at its fourth and fifth call sites. -/
theorem c1_seed_checksum_amended :
    checksumFeed 0 [0x0C, 0x83, 0xDE] = massEraseChecksum ∧
    massEraseLowByte = 0x6D ∧
    massEraseHighByte = 0x01 ∧
    massEraseCallArgs[3]? = some [0x64, 0x6D, ROM_ADDRESS] ∧
    massEraseCallArgs[4]? = some [0x65, 0x01, ROM_ADDRESS] := by
  refine ⟨by decide, by decide, by decide, by decide, by decide⟩

/-- C2 (code bug): the write phase is unimplemented.  For every image path and
checksum, `write_image` raises NameError (its body calls the undefined name
`get_image_data`) and issues zero bus transactions, and `get_image` returns
`None`; no payload byte is ever written and no final checksum pair is sent,
contrary to the claimed record-by-record write behaviour. -/
theorem c2_write_phase_never_writes :
    (∀ (p : String) (c : Nat),
        write_image p c = ([], Except.error PyError.nameError)) ∧
    get_image "fw.srec" = none :=
  ⟨fun _ _ => rfl, rfl⟩

/-- C3: `put_device_into_rom_mode` issues exactly two identical block writes of
the pair `{0xFF, 0xFF}` to the control register `0x00` at the normal address
`0x55`, a settle delay, one block write of the pair `{0x0F, 0x00}` (transmitted
reversed as `{0x00, 0x0F}`), and a second settle delay; each transmitted pair
is the reverse of its natural array order. -/
theorem c3_rom_mode_entry_sequence :
    put_device_into_rom_mode =
      ([Event.blockWrite FUEL_GAUGE_ADDRESS 0x00 [0xFF, 0xFF],
        Event.blockWrite FUEL_GAUGE_ADDRESS 0x00 [0xFF, 0xFF],
        Event.delayMs 200,
        Event.blockWrite FUEL_GAUGE_ADDRESS 0x00 [0x00, 0x0F],
        Event.delayMs 200], Except.ok ()) ∧
    FUEL_GAUGE_ADDRESS = 0x55 ∧
    ([0xFF, 0xFF] : List Nat) = List.reverse [0xFF, 0xFF] ∧
    ([0x00, 0x0F] : List Nat) = List.reverse [0x0F, 0x00] :=
  ⟨rfl, rfl, rfl, rfl⟩

/-- C4 (code bug): `mass_erase_data_flash` raises TypeError at its very first
`write_byte_data` call (three positional arguments for a four-parameter
function), so it issues zero bus transactions — neither the mass-erase command,
nor the erase-target register pair, nor the checksum pair, nor the 0.5 s settle
delay ever happen. -/
theorem c4_mass_erase_raises_before_any_transaction :
    mass_erase_data_flash = ([], Except.error PyError.typeError) ∧
    massEraseCallArgs.head? = some [0x00, 0x0C, ROM_ADDRESS] :=
  ⟨rfl, rfl⟩

/-- C5 counterexample: the erase-phase low byte supplied for verification
register `0x64` is the raw fold `0x6D = 0x16D mod 0x100`, while the claimed
complemented fold `0xFF - (0x16D mod 0x100)` is `0x92`; they differ. -/
theorem c5_low_byte_not_complemented :
    massEraseLowByte = 0x6D ∧
    0xFF - (massEraseChecksum % 0x0100) = 0x92 ∧
    massEraseLowByte ≠ 0xFF - (massEraseChecksum % 0x0100) := by
  refine ⟨by decide, by decide, by decide⟩

/-- C5 (amended): at the program's only checksum write-back site
(`mass_erase_data_flash`, registers `0x64`/`0x65`), the low byte supplied is
the raw accumulated sum mod `0x100` and the high byte the sum div `0x100`,
with no `0xFF` complement applied. -/
theorem c5_low_byte_is_raw_fold :
    massEraseCallArgs[3]? = some [0x64, massEraseChecksum % 0x0100, ROM_ADDRESS] ∧
    massEraseCallArgs[4]? = some [0x65, massEraseChecksum / 0x0100, ROM_ADDRESS] ∧
    massEraseLowByte = massEraseChecksum % 0x0100 := by
  refine ⟨by decide, by decide, by decide⟩

/-- C6 counterexample: a file named `image.srec` that exists but whose content
is not parseable as any record format passes validation, and the run issues bus
transactions (the first being the ROM-entry block write at the normal address)
before any look at the content — the device is not left untouched. -/
theorem c6_unparseable_content_reaches_bus :
    is_valid_image_file ⟨"image.srec", true, "garbage, not a record file"⟩ = true ∧
    (main_flow true ⟨"image.srec", true, "garbage, not a record file"⟩).1.head? =
      some (Event.blockWrite FUEL_GAUGE_ADDRESS 0x00 [0xFF, 0xFF]) ∧
    (main_flow true ⟨"image.srec", true, "garbage, not a record file"⟩).1 ≠ [] := by
  refine ⟨by decide, rfl, by decide⟩

/-- C6 (amended): a path that is not a regular file or whose extension is not
`.srec` is rejected before any bus transaction; but file content is never
validated — the run's trace and outcome are identical for any two contents of
the same path, so an unparseable image is not rejected. -/
theorem c6_invalid_path_rejected_before_bus :
    (∀ (busOpens : Bool) (f : ImageFile),
        is_valid_image_file f = false →
          main_flow busOpens f = ([], FlashOutcome.exitedInvalidFile)) ∧
    (∀ (busOpens : Bool) (p : String) (i : Bool) (c c' : String),
        main_flow busOpens ⟨p, i, c⟩ = main_flow busOpens ⟨p, i, c'⟩) := by
  constructor
  · intro busOpens f h
    simp [main_flow, h]
  · intro busOpens p i c c'
    rfl

/-- C6 witness: the concrete invalid file `image.txt` is rejected with an empty
bus trace. -/
theorem c6_invalid_path_rejected_before_bus_witness :
    main_flow true ⟨"image.txt", true, ""⟩ = ([], FlashOutcome.exitedInvalidFile) :=
  c6_invalid_path_rejected_before_bus.1 true ⟨"image.txt", true, ""⟩ (by decide)

/-- C7: if the bus transport cannot be opened, `flash_image` exits through the
transport-open failure path with zero bus transactions, for every image path —
ROM-mode entry is never reached. -/
theorem c7_transport_open_failure_touches_nothing :
    ∀ (image_in : String),
      flash_image false image_in = ([], FlashOutcome.exitedTransportOpen) :=
  fun _ => rfl

/-- C8: `swapbytes` applied twice to any two-element list returns the original
list (involution on two-element sequences). -/
theorem c8_swapbytes_involution :
    ∀ (a b : Nat), Except.bind (swapbytes [a, b]) swapbytes = Except.ok [a, b] :=
  fun _ _ => rfl

/-- C9: every `write_byte_data` call made by `mass_erase_data_flash` and
`execute_gas_gauge_program` supplies three positional arguments to a function
whose signature has four parameters (a four-argument call would succeed), so
each call raises TypeError and performs no bus write; consequently both
functions abort with TypeError having issued zero transactions. -/
theorem c9_write_byte_data_arity_mismatch :
    massEraseCallArgs.all (fun args => args.length == 3) = true ∧
    gasGaugeCallArgs.all (fun args => args.length == 3) = true ∧
    callWriteByteData [0x00, 0x0C, ROM_ADDRESS] = Except.error PyError.typeError ∧
    callWriteByteData [0x04, 0x83, ROM_ADDRESS] = Except.error PyError.typeError ∧
    callWriteByteData [0x05, 0xDE, ROM_ADDRESS] = Except.error PyError.typeError ∧
    callWriteByteData [0x64, massEraseLowByte, ROM_ADDRESS] = Except.error PyError.typeError ∧
    callWriteByteData [0x65, massEraseHighByte, ROM_ADDRESS] = Except.error PyError.typeError ∧
    callWriteByteData [0x00, 0x0F, ROM_ADDRESS] = Except.error PyError.typeError ∧
    callWriteByteData [0x64, 0x0F, ROM_ADDRESS] = Except.error PyError.typeError ∧
    callWriteByteData [0x65, 0x00, ROM_ADDRESS] = Except.error PyError.typeError ∧
    callWriteByteData [0x00, 0x00, 0x0C, ROM_ADDRESS] =
      Except.ok (Event.byteWrite ROM_ADDRESS 0x00 0x0C) ∧
    mass_erase_data_flash = ([], Except.error PyError.typeError) ∧
    execute_gas_gauge_program = ([], Except.error PyError.typeError) :=
  ⟨rfl, rfl, rfl, rfl, rfl, rfl, rfl, rfl, rfl, rfl, rfl, rfl, rfl⟩

/-- C10: `write_block_data` transmits the swapped pair and leaves the caller's
`values` list mutated to that same swapped order: the post-state of the
argument list (second component) equals the transmitted pair `[b, a]`. -/
theorem c10_write_block_data_mutates_caller_list :
    ∀ (register a b device : Nat),
      write_block_data register [a, b] device =
        Except.ok (Event.blockWrite device register [b, a], [b, a]) :=
  fun _ _ _ _ => rfl

end BQ34Z100Flash
